import Mathlib

/-!
Shallow embedding of `src/app.py` (stock "DNA sequence" screener).

Modelling conventions:

* Binary sequences are `List Char` (symbols `'1'` / `'0'`).
* Python float scores are modelled in `ℚ`.  This is exact for every quantity the
  program computes: `match.size / len(target_seq)` is a ratio of machine integers,
  and for denominators below `2 ^ 50` the rounded float comparison with the float
  literal `0.85` (resp. the guard against `len(target) * 0.8`) coincides with the
  exact rational comparison against `17/20` (resp. `5 * len(stock) < 4 * len(target)`),
  because a rational `m / n` with `n` that small can never fall inside the rounding
  interval of the literal unless it equals the literal exactly.
* Python division raises `ZeroDivisionError` on a zero denominator; this is
  modelled by `pyDiv` returning `Option ℚ` with `none` for the raise.
* Network calls (`ak.stock_zh_a_spot_em`, `ak.stock_zh_a_hist`) are external
  effects; they enter the model as parameters recording each call's outcome
  (`none` models a raised exception).  For a fixed scan the date range, period
  and adjust arguments are fixed, so the per-code candle fetch is a function of
  the code alone.
* The thread pool runs independent tasks and the final ordering is imposed by
  the post-hoc sort, so collection is modelled in submission order; the
  orchestrator also returns a trace of the observable effects (retry warnings,
  sleeps, the final error, one dispatch event per submitted worker task).
-/

namespace App

/-- One row of the universe snapshot returned by `ak.stock_zh_a_spot_em()`:
code, display name, last price (columns `代码`, `名称`, `最新价`). -/
structure SpotRow where
  «代码» : String
  «名称» : String
  «最新价» : ℚ
deriving DecidableEq

/-- One row of the candle frame returned by `ak.stock_zh_a_hist`: date index,
open (`开盘`) and close (`收盘`) prices. -/
structure Candle where
  «日期» : ℕ
  «开盘» : ℚ
  «收盘» : ℚ
deriving DecidableEq

/-- The dict built at `src/app.py` lines 44-50 for a matching stock. -/
structure MatchRecord where
  «代码» : String
  «名称» : String
  «当前价» : ℚ
  «匹配度» : ℚ
  «股票实际序列» : List Char
deriving DecidableEq

/-- All contiguous sublists of `l` (every suffix's prefixes). -/
def contigSublists (l : List α) : List (List α) :=
  l.tails.flatMap List.inits

/-- `difflib.SequenceMatcher(None, a, b, autojunk=False).find_longest_match(0, len(a), 0, len(b)).size`:
the size of the longest matching block, i.e. the length of the longest
contiguous substring common to `a` and `b`. -/
def find_longest_match_size (a b : List Char) : ℕ :=
  (((contigSublists a).filter (fun t => decide (t <:+: b))).map List.length).foldr max 0

/-- Python `/` on a possibly-zero denominator: `ZeroDivisionError` is `none`. -/
def pyDiv (a b : ℚ) : Option ℚ :=
  if b = 0 then none else some (a / b)

/-- `calculate_seq_similarity` (`src/app.py` lines 13-23).  The length guard
`len(stock_seq) < len(target_seq) * 0.8` is modelled by the exact comparison
`5 * len(stock_seq) < 4 * len(target_seq)` (see file comment). -/
def calculate_seq_similarity (target_seq stock_seq : List Char) : Option ℚ :=
  if 5 * stock_seq.length < 4 * target_seq.length then some 0
  else pyDiv ((find_longest_match_size target_seq stock_seq : ℕ) : ℚ)
    ((target_seq.length : ℕ) : ℚ)

/-- The per-candle symbol of `src/app.py` line 36:
`np.where(df['收盘'] >= df['开盘'], '1', '0')`. -/
def sign (c : Candle) : Char :=
  if c.«收盘» ≥ c.«开盘» then '1' else '0'

/-- The candidate sequence of `src/app.py` lines 36-38: one symbol per candle,
joined in the frame's (date) order. -/
def stockSeqOf (df : List Candle) : List Char :=
  df.map sign

/-- `process_stock_seq` (`src/app.py` lines 28-54).  `fetched` is the outcome of
`ak.stock_zh_a_hist(symbol=code, period=k_period, start_date=start_date,
end_date=end_date, adjust="qfq")`; `none` models any exception raised inside the
`try` block, which the bare `except` turns into a `None` return. -/
def process_stock_seq (fetched : Option (List Candle)) (code name : String)
    (price : ℚ) (target_seq : List Char) : Option MatchRecord :=
  match fetched with
  | none => none
  | some df =>
    if df.isEmpty then none
    else
      let stock_seq_str := stockSeqOf df
      match calculate_seq_similarity target_seq stock_seq_str with
      | none => none
      | some score =>
        if (0.85 : ℚ) < score then
          some ⟨code, name, price, score, stock_seq_str⟩
        else none

/-- Observable effects of the orchestrator that the claims mention: the retry
warning for a failed universe-fetch attempt, the fixed `time.sleep(2)` between
attempts, the final error report after exhausting the retries, and the
submission of one worker task per candidate row. -/
inductive Ev where
  | warnRetry : ℕ → Ev
  | sleepSec : ℕ → Ev
  | errorFinal : Ev
  | dispatch : String → Ev
deriving DecidableEq

/-- `max_retries` (`src/app.py` line 70). -/
def max_retries : ℕ := 3

/-- The universe-fetch retry loop (`src/app.py` lines 71-82), iterating over
the attempt numbers `range(max_retries)`.  `spot n` is the outcome of the
`ak.stock_zh_a_spot_em()` call on attempt number `n` (`none` models a raised
exception).  A success breaks out of the loop; a failure warns and sleeps when
`attempt < max_retries - 1`, and otherwise reports the final error, after which
the caller returns `[]`. -/
def retryLoop (spot : ℕ → Option (List SpotRow)) :
    List ℕ → Option (List SpotRow) × List Ev
  | [] => (none, [])
  | attempt :: rest =>
    match spot attempt with
    | some u => (some u, [])
    | none =>
      if attempt < max_retries - 1 then
        let next := retryLoop spot rest
        (next.1, Ev.warnRetry (attempt + 1) :: Ev.sleepSec 2 :: next.2)
      else (none, [Ev.errorFinal])

/-- The price filter (`src/app.py` lines 85-91): an inclusive range when
`price_range` is given, otherwise keep the rows with a positive last price. -/
def filterUniverse (price_range : Option (ℚ × ℚ)) (df_all : List SpotRow) :
    List SpotRow :=
  match price_range with
  | some (min_p, max_p) =>
    df_all.filter (fun r => decide (min_p ≤ r.«最新价» ∧ r.«最新价» ≤ max_p))
  | none => df_all.filter (fun r => decide (0 < r.«最新价»))

/-- `pandas.DataFrame.drop_duplicates(subset=['代码'])`: keep the first row for
each code, in order; the first argument accumulates the codes already kept. -/
def dropDupByCode : List String → List SpotRow → List SpotRow
  | _, [] => []
  | seen, r :: rest =>
    if r.«代码» ∈ seen then dropDupByCode seen rest
    else r :: dropDupByCode (r.«代码» :: seen) rest

/-- The suspect-inclusion step (`src/app.py` lines 93-96): select the rows of
the (already filtered) frame whose code is `"002115"`; when that selection is
non-empty, concatenate it back and drop duplicate codes. -/
def addSuspect (df_all : List SpotRow) : List SpotRow :=
  let suspect := df_all.filter (fun r => decide (r.«代码» = "002115"))
  if suspect.isEmpty then df_all
  else dropDupByCode [] (df_all ++ suspect)

/-- Outcomes of the external calls a scan performs: `spot n` is attempt `n` of
the universe fetch, `hist code` is the candle fetch for `code` (with the scan's
fixed date range, period and adjust arguments). -/
structure ScanEnv where
  spot : ℕ → Option (List SpotRow)
  hist : String → Option (List Candle)

/-- Sort key of `src/app.py` line 131: descending by `匹配度` (score). -/
def byScoreDesc (a b : MatchRecord) : Prop :=
  b.«匹配度» ≤ a.«匹配度»

instance : DecidableRel byScoreDesc :=
  fun a b => inferInstanceAs (Decidable (b.«匹配度» ≤ a.«匹配度»))

instance : IsTotal MatchRecord byScoreDesc :=
  ⟨fun a b => le_total b.«匹配度» a.«匹配度»⟩

instance : IsTrans MatchRecord byScoreDesc :=
  ⟨fun _ _ _ h1 h2 => le_trans h2 h1⟩

/-- `run_manual_scan` (`src/app.py` lines 59-132): universe fetch with retry,
price filter, suspect inclusion, one worker per row, collect the non-`None`
results, sort descending by score, return the first 10.  Also returns the
event trace.  Status/progress messages are presentation only and are omitted;
the two consecutive `st.error` calls on retry exhaustion are one `errorFinal`
event. -/
def run_manual_scan (env : ScanEnv) (target_seq : List Char)
    (price_range : Option (ℚ × ℚ)) : List MatchRecord × List Ev :=
  let fetchRes := retryLoop env.spot (List.range max_retries)
  match fetchRes.1 with
  | none => ([], fetchRes.2)
  | some df0 =>
    let df_all := addSuspect (filterUniverse price_range df0)
    let results := df_all.filterMap fun r =>
      process_stock_seq (env.hist r.«代码») r.«代码» r.«名称» r.«最新价» target_seq
    ((List.insertionSort byScoreDesc results).take 10,
      fetchRes.2 ++ df_all.map fun r => Ev.dispatch r.«代码»)

/-! Helper lemmas about the longest-match computation and the scorer. -/

lemma isInfix_of_mem_contigSublists {α : Type} {a x : List α}
    (h : x ∈ contigSublists a) : x <:+: a := by
  rcases List.mem_flatMap.1 h with ⟨t, ht, hx⟩
  exact (((List.mem_inits _ _).1 hx).isInfix).trans (((List.mem_tails _ _).1 ht).isInfix)

lemma self_mem_contigSublists {α : Type} (a : List α) : a ∈ contigSublists a :=
  List.mem_flatMap.2 ⟨a, (List.mem_tails _ _).2 (List.suffix_refl a),
    (List.mem_inits _ _).2 (List.prefix_refl a)⟩

lemma foldr_max_le {l : List ℕ} {n : ℕ} (h : ∀ x ∈ l, x ≤ n) : l.foldr max 0 ≤ n := by
  induction l with
  | nil => simp
  | cons y ys ih =>
    simp only [List.foldr_cons]
    exact max_le (h y (List.mem_cons_self y ys)) (ih fun x hx => h x (List.mem_cons_of_mem y hx))

lemma le_foldr_max {l : List ℕ} {x : ℕ} (h : x ∈ l) : x ≤ l.foldr max 0 := by
  induction l with
  | nil => cases h
  | cons y ys ih =>
    simp only [List.foldr_cons]
    rcases List.mem_cons.1 h with rfl | h2
    · exact le_max_left _ _
    · exact le_trans (ih h2) (le_max_right _ _)

lemma find_longest_match_size_le (a b : List Char) :
    find_longest_match_size a b ≤ a.length := by
  apply foldr_max_le
  intro x hx
  rcases List.mem_map.1 hx with ⟨t, ht, rfl⟩
  exact List.IsInfix.length_le (isInfix_of_mem_contigSublists (List.mem_of_mem_filter ht))

lemma le_find_longest_match_size {a b : List Char} (h : a <:+: b) :
    a.length ≤ find_longest_match_size a b := by
  apply le_foldr_max
  exact List.mem_map.2
    ⟨a, List.mem_filter.2 ⟨self_mem_contigSublists a, decide_eq_true h⟩, rfl⟩

lemma calculate_seq_similarity_of_guard {t s : List Char}
    (h : 5 * s.length < 4 * t.length) : calculate_seq_similarity t s = some 0 := by
  simp [calculate_seq_similarity, h]

lemma calculate_seq_similarity_nil_target (s : List Char) :
    calculate_seq_similarity [] s = none := by
  simp [calculate_seq_similarity, pyDiv]

lemma calculate_seq_similarity_eq_div {t s : List Char} (hne : t ≠ [])
    (h : ¬ 5 * s.length < 4 * t.length) :
    calculate_seq_similarity t s =
      some ((find_longest_match_size t s : ℚ) / (t.length : ℚ)) := by
  have hlen : ((t.length : ℕ) : ℚ) ≠ 0 :=
    Nat.cast_ne_zero.2 (List.length_pos.2 hne).ne'
  simp [calculate_seq_similarity, h, pyDiv, hlen]

lemma calculate_seq_similarity_total {t s : List Char} (hne : t ≠ []) :
    ∃ q, calculate_seq_similarity t s = some q ∧ 0 ≤ q ∧ q ≤ 1 := by
  by_cases h : 5 * s.length < 4 * t.length
  · exact ⟨0, calculate_seq_similarity_of_guard h, le_refl 0, zero_le_one⟩
  · have hpos : (0 : ℚ) < (t.length : ℚ) := by
      exact_mod_cast List.length_pos.2 hne
    refine ⟨_, calculate_seq_similarity_eq_div hne h,
      div_nonneg (Nat.cast_nonneg _) (Nat.cast_nonneg _), ?_⟩
    rw [div_le_one hpos]
    exact_mod_cast find_longest_match_size_le t s

lemma calculate_seq_similarity_isSome {t s : List Char} (hne : t ≠ []) :
    (calculate_seq_similarity t s).isSome = true := by
  rcases calculate_seq_similarity_total (s := s) hne with ⟨q, hq, -, -⟩
  simp [hq]

lemma calculate_seq_similarity_of_isInfix {t s : List Char} (hne : t ≠ [])
    (hsub : t <:+: s) : calculate_seq_similarity t s = some 1 := by
  have hlen : t.length ≤ s.length := List.IsInfix.length_le hsub
  have hg : ¬ 5 * s.length < 4 * t.length := by omega
  have hsize : find_longest_match_size t s = t.length :=
    le_antisymm (find_longest_match_size_le t s) (le_find_longest_match_size hsub)
  have hpos : (0 : ℚ) < (t.length : ℚ) := by
    exact_mod_cast List.length_pos.2 hne
  rw [calculate_seq_similarity_eq_div hne hg, hsize, div_self hpos.ne']

lemma calculate_seq_similarity_candidate_nil (t : List Char) :
    calculate_seq_similarity t [] = some 0 ∨ calculate_seq_similarity t [] = none := by
  rcases eq_or_ne t [] with rfl | hne
  · exact Or.inr (calculate_seq_similarity_nil_target [])
  · left
    apply calculate_seq_similarity_of_guard
    have : 0 < t.length := List.length_pos.2 hne
    simp only [List.length_nil]
    omega

lemma run_manual_scan_fst_cases (env : ScanEnv) (target : List Char)
    (pr : Option (ℚ × ℚ)) :
    (run_manual_scan env target pr).1 = [] ∨
    ∃ results, (run_manual_scan env target pr).1 =
      (List.insertionSort byScoreDesc results).take 10 := by
  simp only [run_manual_scan]
  split
  · exact Or.inl rfl
  · exact Or.inr ⟨_, rfl⟩

/-! The claim theorems. -/

/-- C1 (counterexample): at target `[]`, candidate `[]` the length guard does
not fire (no length is below `0.8 * 0`), and yet no score in `[0,1]` is
returned: the final division is by the zero target length, which raises. -/
theorem calculate_seq_similarity_empty_pair_counterexample :
    ¬ (5 * ([] : List Char).length < 4 * ([] : List Char).length) ∧
    ¬ ∃ q : ℚ, calculate_seq_similarity [] [] = some q ∧ 0 ≤ q ∧ q ≤ 1 := by
  constructor
  · simp
  · rintro ⟨q, hq, -, -⟩
    rw [calculate_seq_similarity_nil_target] at hq
    exact Option.noConfusion hq

/-- C1 (amended): for every pair whose TARGET is non-empty,
`calculate_seq_similarity` returns a score in `[0,1]`, and when the candidate
length is strictly below `0.8` times the target length it returns exactly `0`. -/
theorem calculate_seq_similarity_score_range (t s : List Char) (hne : t ≠ []) :
    (∃ q, calculate_seq_similarity t s = some q ∧ 0 ≤ q ∧ q ≤ 1) ∧
    (5 * s.length < 4 * t.length → calculate_seq_similarity t s = some 0) :=
  ⟨calculate_seq_similarity_total hne, fun h => calculate_seq_similarity_of_guard h⟩

theorem calculate_seq_similarity_score_range_witness :
    (∃ q, calculate_seq_similarity ['1'] [] = some q ∧ 0 ≤ q ∧ q ≤ 1) ∧
    (5 * ([] : List Char).length < 4 * (['1'] : List Char).length →
      calculate_seq_similarity ['1'] [] = some 0) :=
  calculate_seq_similarity_score_range ['1'] [] (by decide)

/-- C2 (code bug, evaluated at the failing input): in a universe where
`"002115"` has the valid price `50`, scanning with price filter `(10, 15)`
dispatches no worker for `"002115"`, while the same universe scanned without a
price filter does dispatch it.  Lines 93-96 select the suspect rows from the
already-filtered frame, so the suspect is never appended when the filter
dropped it, contradicting the force-include comment above those lines. -/
theorem suspect_not_dispatched_when_filtered_out :
    ((run_manual_scan
        ⟨fun _ => some [⟨"002115", "A", 50⟩, ⟨"000001", "B", 12⟩], fun _ => none⟩
        [] (some (10, 15))).2.all
      (fun e => decide (e ≠ Ev.dispatch "002115")) = true) ∧
    (Ev.dispatch "002115") ∈
      (run_manual_scan
        ⟨fun _ => some [⟨"002115", "A", 50⟩, ⟨"000001", "B", 12⟩], fun _ => none⟩
        [] none).2 := by
  constructor
  · decide
  · decide

/-- C3: target `"110"` against candidate `"110110"` scores exactly `1`, while
the swapped pair scores at most `1/2` (the length guard fires, giving `0`). -/
theorem calculate_seq_similarity_asymmetric_110 :
    calculate_seq_similarity ['1','1','0'] ['1','1','0','1','1','0'] = some 1 ∧
    ∃ q, calculate_seq_similarity ['1','1','0','1','1','0'] ['1','1','0'] = some q ∧
      q ≤ 1 / 2 := by
  constructor
  · exact calculate_seq_similarity_of_isInfix (by decide) (by decide)
  · exact ⟨0, calculate_seq_similarity_of_guard (by decide), by norm_num⟩

/-- C4: for a successfully fetched candle frame, the worker returns a match
record iff the computed similarity score strictly exceeds `0.85`; a score equal
to `0.85` (or below) yields no result. -/
theorem process_stock_seq_threshold_iff (df : List Candle) (code name : String)
    (price : ℚ) (target : List Char) :
    (process_stock_seq (some df) code name price target).isSome = true ↔
    ∃ q, calculate_seq_similarity target (stockSeqOf df) = some q ∧ (0.85 : ℚ) < q := by
  by_cases hemp : df.isEmpty
  · have hdf : df = [] := by
      cases df with
      | nil => rfl
      | cons c cs => simp [List.isEmpty] at hemp
    subst hdf
    constructor
    · intro h
      simp [process_stock_seq] at h
    · rintro ⟨q, hq, hq2⟩
      rcases calculate_seq_similarity_candidate_nil target with h0 | h0 <;>
        rw [show stockSeqOf [] = [] from rfl, h0] at hq
      · injection hq with hq
        subst hq
        norm_num at hq2
      · exact Option.noConfusion hq
  · cases hc : calculate_seq_similarity target (stockSeqOf df) with
    | none => simp [process_stock_seq, hemp, hc]
    | some q =>
      by_cases hq : (0.85 : ℚ) < q
      · simp [process_stock_seq, hemp, hc, hq]
      · simp [process_stock_seq, hemp, hc, hq]

/-- C5: every scan returns at most 10 match records, sorted descending by
score (`匹配度`). -/
theorem run_manual_scan_top10_sorted (env : ScanEnv) (target : List Char)
    (pr : Option (ℚ × ℚ)) :
    (run_manual_scan env target pr).1.length ≤ 10 ∧
    List.Sorted byScoreDesc (run_manual_scan env target pr).1 := by
  rcases run_manual_scan_fst_cases env target pr with h | ⟨results, h⟩
  · rw [h]
    exact ⟨by simp, List.sorted_nil⟩
  · rw [h]
    constructor
    · rw [List.length_take]
      exact min_le_left _ _
    · exact List.Pairwise.sublist (List.take_sublist _ _)
        (List.sorted_insertionSort _ _)

/-- C6: when all three universe-fetch attempts fail, the scan aborts: it
returns no results and its trace shows the two retry warnings with the fixed
2-second sleep between failed attempts, the final error report, and no worker
dispatch at all. -/
theorem run_manual_scan_universe_fetch_abort (env : ScanEnv) (target : List Char)
    (pr : Option (ℚ × ℚ)) (h0 : env.spot 0 = none) (h1 : env.spot 1 = none)
    (h2 : env.spot 2 = none) :
    run_manual_scan env target pr =
      ([], [Ev.warnRetry 1, Ev.sleepSec 2, Ev.warnRetry 2, Ev.sleepSec 2,
        Ev.errorFinal]) := by
  have hf : retryLoop env.spot (List.range max_retries) =
      (none, [Ev.warnRetry 1, Ev.sleepSec 2, Ev.warnRetry 2, Ev.sleepSec 2,
        Ev.errorFinal]) := by
    rw [show List.range max_retries = [0, 1, 2] from rfl]
    simp [retryLoop, h0, h1, h2, max_retries]
  simp [run_manual_scan, hf]

theorem run_manual_scan_universe_fetch_abort_witness :
    run_manual_scan ⟨fun _ => none, fun _ => none⟩ [] none =
      ([], [Ev.warnRetry 1, Ev.sleepSec 2, Ev.warnRetry 2, Ev.sleepSec 2,
        Ev.errorFinal]) :=
  run_manual_scan_universe_fetch_abort ⟨fun _ => none, fun _ => none⟩ [] none
    rfl rfl rfl

/-- C7: when the candle fetch raises (any exception in the `try` block) and
when it returns an empty frame, the worker returns no result for that
candidate; it is a total function, so nothing propagates to the scan. -/
theorem process_stock_seq_error_swallowed (code name : String) (price : ℚ)
    (target : List Char) :
    process_stock_seq none code name price target = none ∧
    process_stock_seq (some []) code name price target = none :=
  ⟨rfl, rfl⟩

/-- C8: the candidate sequence has exactly one symbol per candle, in the
frame's order: position `i` holds `'1'` iff that candle closed at or above its
open, and `'0'` otherwise. -/
theorem stockSeqOf_encoding (df : List Candle) (i : ℕ) :
    (stockSeqOf df).length = df.length ∧
    (stockSeqOf df)[i]? =
      (df[i]?).map (fun c => if c.«收盘» ≥ c.«开盘» then '1' else '0') := by
  refine ⟨by simp [stockSeqOf], ?_⟩
  cases h : df[i]? <;> simp [stockSeqOf, List.getElem?_map, h, sign]

/-- C9: the scorer is partial exactly at the empty target: for the empty
target the length guard never fires and the division by the target length
raises (`none`); for every non-empty target it returns a score. -/
theorem calculate_seq_similarity_empty_target_divzero (t s : List Char) :
    (t = [] → ¬ (5 * s.length < 4 * t.length) ∧
      calculate_seq_similarity t s = none) ∧
    (t ≠ [] → (calculate_seq_similarity t s).isSome = true) := by
  constructor
  · rintro rfl
    exact ⟨by simp, calculate_seq_similarity_nil_target s⟩
  · exact fun hne => calculate_seq_similarity_isSome hne

theorem calculate_seq_similarity_empty_target_divzero_witness :
    (¬ (5 * (['0'] : List Char).length < 4 * ([] : List Char).length) ∧
      calculate_seq_similarity [] ['0'] = none) ∧
    (calculate_seq_similarity ['0'] ['0']).isSome = true :=
  ⟨(calculate_seq_similarity_empty_target_divzero [] ['0']).1 rfl,
   (calculate_seq_similarity_empty_target_divzero ['0'] ['0']).2 (by decide)⟩

/-- C10: every non-empty target occurring as a contiguous substring of the
candidate scores exactly `1`; in particular every non-empty sequence scores
`1` against itself. -/
theorem calculate_seq_similarity_substring_one (t s : List Char) (hne : t ≠ [])
    (hsub : t <:+: s) :
    calculate_seq_similarity t s = some 1 ∧
    calculate_seq_similarity t t = some 1 :=
  ⟨calculate_seq_similarity_of_isInfix hne hsub,
   calculate_seq_similarity_of_isInfix hne (List.infix_refl t)⟩

theorem calculate_seq_similarity_substring_one_witness :
    calculate_seq_similarity ['1','0'] ['0','1','0','1'] = some 1 ∧
    calculate_seq_similarity ['1','0'] ['1','0'] = some 1 :=
  calculate_seq_similarity_substring_one ['1','0'] ['0','1','0','1']
    (by decide) (by decide)

end App
